import Mathlib

/-!
# REST-API-s-Road: handlers, routers and the OAuth callback

A shallow embedding of the Express handlers of the repository.

* A handler `(req, res, next) => ...` is a function from the request to the
  sequence of calls it makes on `res` and `next`, in program order.
* `res.json(v)` is recorded with the JavaScript value `v` it is given.
* Code that can throw returns `Except JsError _`.
-/

namespace RestApiRoad

/-! ## JavaScript values -/

/-- JavaScript values as they travel through the handlers. Objects keep their
keys in insertion order. -/
inductive JsVal where
  | undefined
  | null
  | bool (b : Bool)
  | num (n : Float)
  | str (s : String)
  | arr (items : List JsVal)
  | obj (fields : List (String × JsVal))

/-- Errors thrown by the JavaScript runtime. -/
inductive JsError where
  | typeError (reading : String)
  deriving DecidableEq, Repr

/-- Conversion done by a template literal on a property that is a string when
present: a missing property reads as `undefined` and prints as such. -/
def templateArg : Option String → String
  | some s => s
  | none => "undefined"

/-! ## Requests and responses -/

/-- HTTP verbs. -/
inductive Method where
  | GET | HEAD | POST | PUT | DELETE | PATCH | OPTIONS
  deriving DecidableEq, Repr

/-- Modelled from the spec: the class `AppError` of `utils/errorHandler.utils`,
which is required by `index.js` and is not among the sources. The spec says
the custom error carries (statusCode, message); `new AppError(404, m)` builds
it from the status code and the message, in that order. -/
structure AppError where
  statusCode : Nat
  message : String
  deriving DecidableEq, Repr

/-- The part of an Express request the repository reads, together with the
parts it never reads (`query`, `headers`). `path` is the request path as the
list of its decoded, non-empty segments: `/` is `[]`, `/api/users/7` is
`["api", "users", "7"]`. `params` is `req.params`, `isAuthenticated` is the
result of `req.isAuthenticated()`. `jsonError` and `urlencodedError` are the
errors, given by the status code and message they carry, with which
`express.json()` and `express.urlencoded(...)` refuse the raw body of the
request (400 for a body that does not parse, 415 for a charset they do not
read); `none` when the parser accepts the body or has none to read, and then
`body` is `req.body` as the parsers leave it. -/
structure Request where
  method : Method
  path : List String
  params : List (String × String)
  query : List (String × String)
  headers : List (String × String)
  body : JsVal
  user : JsVal
  isAuthenticated : Bool
  jsonError : Option AppError
  urlencodedError : Option AppError

/-- One call made by a handler on `res` or on `next`. -/
inductive Effect where
  | status (code : Nat)
  | json (body : JsVal)
  | send (text : String)
  | redirect (url : String)
  | logout
  | next
  | nextErr (err : AppError)

/-- A middleware or route handler: the calls it makes, in order. -/
abbrev Handler := Request → List Effect

/-! ## controllers/user.controller.js -/

/-- Handler `exports.getUsers`. -/
def getUsers : Handler := fun _req =>
  [Effect.json (JsVal.obj [("message", JsVal.str "Returning list of users")])]

/-- Handler `exports.getUserById`. -/
def getUserById : Handler := fun req =>
  let userId := req.params.lookup "id"
  [Effect.json (JsVal.obj
    [("message", JsVal.str ("Returning user with ID " ++ templateArg userId))])]

/-- Handler `exports.createUser`. -/
def createUser : Handler := fun req =>
  let newUser := req.body
  [Effect.json (JsVal.obj [("message", JsVal.str "User created"), ("user", newUser)])]

/-- Handler `exports.updateUser`. The object literal uses the shorthand property
`updatedUser`, so that is the key of the body. -/
def updateUser : Handler := fun req =>
  let userId := req.params.lookup "id"
  let updatedUser := req.body
  [Effect.json (JsVal.obj
    [("message", JsVal.str ("User with ID " ++ templateArg userId ++ " updated")),
     ("updatedUser", updatedUser)])]

/-- Handler `exports.deleteUser`. -/
def deleteUser : Handler := fun req =>
  let userId := req.params.lookup "id"
  [Effect.json (JsVal.obj
    [("message", JsVal.str ("User with ID " ++ templateArg userId ++ " deleted"))])]

/-! ## controllers/product.controller.js -/

/-- Handler `exports.getProducts`. -/
def getProducts : Handler := fun _req =>
  [Effect.json (JsVal.obj [("message", JsVal.str "Returning list of products")])]

/-- Handler `exports.getProductById`. -/
def getProductById : Handler := fun req =>
  let productId := req.params.lookup "id"
  [Effect.json (JsVal.obj
    [("message", JsVal.str ("Returning product with ID " ++ templateArg productId))])]

/-- Handler `exports.createProduct`. -/
def createProduct : Handler := fun req =>
  let newProduct := req.body
  [Effect.json (JsVal.obj [("message", JsVal.str "Product created"), ("product", newProduct)])]

/-- Handler `exports.updateProduct`. -/
def updateProduct : Handler := fun req =>
  let productId := req.params.lookup "id"
  let updatedProduct := req.body
  [Effect.json (JsVal.obj
    [("message", JsVal.str ("Product with ID " ++ templateArg productId ++ " updated")),
     ("product", updatedProduct)])]

/-- Handler `exports.deleteProduct`. -/
def deleteProduct : Handler := fun req =>
  let productId := req.params.lookup "id"
  [Effect.json (JsVal.obj
    [("message", JsVal.str ("Product with ID " ++ templateArg productId ++ " deleted"))])]

/-! ## Express routing -/

/-- Lower-casing of a path segment; Express compares the fixed parts of a
route path without regard to case. -/
def lowerSeg (s : String) : List Char := s.toList.map Char.toLower

/-- One segment of a route path: fixed text, or a named parameter `:name`. -/
inductive Seg where
  | lit (text : String)
  | param (name : String)

/-- Matching of a whole route path against the request path. A parameter
takes one non-empty segment, which becomes its value in `req.params`. -/
def matchPath : List Seg → List String → Option (List (String × String))
  | [], [] => some []
  | Seg.lit t :: ps, x :: xs =>
      if lowerSeg t = lowerSeg x then matchPath ps xs else none
  | Seg.param n :: ps, x :: xs =>
      if x = "" then none else (matchPath ps xs).map (fun m => (n, x) :: m)
  | _, _ => none

/-- Matching of the mount path of `app.use(path, fn)`: the mount path is a
leading part of the request path; the result is the rest of the path. -/
def stripMount : List String → List String → Option (List String)
  | [], xs => some xs
  | m :: ms, x :: xs => if lowerSeg m = lowerSeg x then stripMount ms xs else none
  | _ :: _, [] => none

/-- Whether a route registered for verb `r` serves a request with verb `m`:
the same verb, or a `HEAD` request on a `GET` route. -/
def handlesMethod (r m : Method) : Bool :=
  decide (r = m) || (decide (m = Method.HEAD) && decide (r = Method.GET))

/-- Handlers of one route, `app.get(path, h1, h2, ...)`: a handler that calls
`next()` hands over to the following one, `next(err)` leaves the route. -/
def runChain : List Handler → Request → List Effect
  | [], _ => [Effect.next]
  | h :: hs, req =>
      (h req).flatMap fun e =>
        match e with
        | Effect.next => runChain hs req
        | e => [e]

/-- One entry of the stack of an application or router, in registration
order. -/
inductive Layer where
  | use (mount : List String) (h : Handler)
  | route (method : Method) (path : List Seg) (chain : List Handler)
  | useErr (h : AppError → Handler)

/-- Whether a layer is entered by a request that carries no error. -/
def Layer.accepts : Layer → Request → Bool
  | Layer.use mount _, req => (stripMount mount req.path).isSome
  | Layer.route m p _, req => handlesMethod m req.method && (matchPath p req.path).isSome
  | Layer.useErr _, _ => false

/-- Dispatch of a request through a stack. The second argument is the error
passed to `next`, if any: with an error only error-handling middleware runs,
without one it is skipped. A trace that ends in `next` or `nextErr` left the
stack unanswered. -/
def dispatch : List Layer → Option AppError → Request → List Effect
  | [], none, _ => [Effect.next]
  | [], some err, _ => [Effect.nextErr err]
  | Layer.useErr h :: ls, some err, req =>
      (h err req).flatMap fun e =>
        match e with
        | Effect.next => dispatch ls none req
        | Effect.nextErr err2 => dispatch ls (some err2) req
        | e => [e]
  | Layer.useErr _ :: ls, none, req => dispatch ls none req
  | Layer.use _ _ :: ls, some err, req => dispatch ls (some err) req
  | Layer.route _ _ _ :: ls, some err, req => dispatch ls (some err) req
  | Layer.use mount h :: ls, none, req =>
      match stripMount mount req.path with
      | none => dispatch ls none req
      | some rest =>
          (h ⟨req.method, rest, req.params, req.query, req.headers, req.body, req.user,
              req.isAuthenticated, req.jsonError, req.urlencodedError⟩).flatMap fun e =>
            match e with
            | Effect.next => dispatch ls none req
            | Effect.nextErr err2 => dispatch ls (some err2) req
            | e => [e]
  | Layer.route m p chain :: ls, none, req =>
      if handlesMethod m req.method then
        match matchPath p req.path with
        | none => dispatch ls none req
        | some ps =>
            (runChain chain ⟨req.method, req.path, ps, req.query, req.headers, req.body,
                req.user, req.isAuthenticated, req.jsonError, req.urlencodedError⟩).flatMap
              fun e =>
              match e with
              | Effect.next => dispatch ls none req
              | Effect.nextErr err2 => dispatch ls (some err2) req
              | e => [e]
      else dispatch ls none req

/-! ## routes/products.routes.js -/

/-- The stack of `router` in `routes/products.routes.js`. -/
def router : List Layer :=
  [ Layer.route Method.GET [] [getProducts],
    Layer.route Method.GET [Seg.param "id"] [getProductById],
    Layer.route Method.POST [] [createProduct],
    Layer.route Method.PUT [Seg.param "id"] [updateProduct],
    Layer.route Method.DELETE [Seg.param "id"] [deleteProduct] ]

/-! ## index.js -/

/-- Modelled from the spec: the error-handling middleware `validation` of
`middleware/validation.middleware`, which `index.js` registers last and which
is not among the sources. The spec says the custom error is passed to a
generic handler and that the demo route yields a 404 with the message of the
error: the handler answers with the status code and the message the error
carries. -/
def validation : AppError → Handler := fun err _req =>
  [Effect.status err.statusCode, Effect.json (JsVal.obj [("message", JsVal.str err.message)])]

/-- The middleware `express.json()`: it answers nothing itself; it calls
`next(err)` on a body it cannot parse and `next()` otherwise. -/
def jsonParser : Handler := fun req =>
  match req.jsonError with
  | some err => [Effect.nextErr err]
  | none => [Effect.next]

/-- The middleware `express.urlencoded(...)`: it answers nothing itself; it
calls `next(err)` on a body it cannot parse and `next()` otherwise. -/
def urlencodedParser : Handler := fun req =>
  match req.urlencodedError with
  | some err => [Effect.nextErr err]
  | none => [Effect.next]

/-- Handler of `app.get('/')`. -/
def rootHandler : Handler := fun _req => [Effect.send "Hello, World! The server is running."]

/-- Handler of `app.get('/api/error-demo')`. -/
def errorDemoHandler : Handler := fun _req =>
  [Effect.nextErr (AppError.mk 404 "Resource not found")]

/-- The stack of `app` in `index.js`, in registration order. The router
`userRoutes` comes from `routes/users.routes`, which is not among the
sources: it is a parameter. -/
def app (userRoutes : Handler) : List Layer :=
  [ Layer.use [] jsonParser,
    Layer.use [] urlencodedParser,
    Layer.route Method.GET [] [rootHandler],
    Layer.use ["api", "users"] userRoutes,
    Layer.route Method.GET [Seg.lit "api", Seg.lit "error-demo"] [errorDemoHandler],
    Layer.useErr validation ]

/-! ## auth/oauth-third-party.js -/

/-- One entry of `profile.emails`. -/
structure EmailEntry where
  value : JsVal
  verified : JsVal

/-- The profile the Google strategy hands to the verify callback. `emails` is
`none` when the property is absent. -/
structure Profile where
  provider : JsVal
  id : JsVal
  displayName : JsVal
  name : JsVal
  emails : Option (List EmailEntry)
  photos : JsVal
  raw : JsVal
  json : JsVal

/-- A call `done(err, user)`. -/
structure Done where
  err : JsVal
  user : JsVal

/-- Evaluation of `emails[0]`: reading an index of `undefined` throws, an
index past the end of an array is `undefined`. -/
def firstEntry : Option (List EmailEntry) → Except JsError (Option EmailEntry)
  | none => Except.error (JsError.typeError "0")
  | some [] => Except.ok none
  | some (e :: _) => Except.ok (some e)

/-- Evaluation of `entry.value`: reading a property of `undefined` throws. -/
def entryValue : Option EmailEntry → Except JsError JsVal
  | none => Except.error (JsError.typeError "value")
  | some e => Except.ok e.value

/-- The verify callback given to `new GoogleStrategy(...)`. The result is the
call of `done` it makes, or the error it throws. -/
def verify (_accessToken _refreshToken : String) (profile : Profile) : Except JsError Done := do
  let first ← firstEntry profile.emails
  let email ← entryValue first
  let user := JsVal.obj
    [("id", profile.id), ("displayName", profile.displayName), ("email", email),
     ("provider", JsVal.str "google")]
  return Done.mk JsVal.null user

/-- Callback given to `passport.serializeUser`. -/
def serializeUser (user : JsVal) : Done := Done.mk JsVal.null user

/-- Callback given to `passport.deserializeUser`. -/
def deserializeUser (user : JsVal) : Done := Done.mk JsVal.null user

/-- Middleware `isAuthenticated`. -/
def isAuthenticated : Handler := fun req =>
  if req.isAuthenticated then [Effect.next] else [Effect.redirect "/login"]

/-- Final handler of `app.get('/profile', ...)`. -/
def profileHandler : Handler := fun req => [Effect.json (JsVal.obj [("user", req.user)])]

/-- Handlers of `app.get('/profile', isAuthenticated, ...)`. -/
def profileChain : List Handler := [isAuthenticated, profileHandler]

/-- The route `app.get('/profile', isAuthenticated, ...)`. -/
def profileRoute : Layer := Layer.route Method.GET [Seg.lit "profile"] profileChain

/-- Handler of `app.get('/logout')`. -/
def logoutHandler : Handler := fun _req => [Effect.logout, Effect.redirect "/"]

/-! ## Renaming of the entity, for the comparison of the two controllers -/

/-- Replacement of every occurrence of `pat` by `rep`, left to right; the
first argument bounds the number of steps and is the length of the text. -/
def replaceAll (pat rep : List Char) : Nat → List Char → List Char
  | 0, cs => cs
  | _ + 1, [] => []
  | n + 1, c :: cs =>
      if pat ≠ [] ∧ pat.isPrefixOf (c :: cs) = true then
        rep ++ replaceAll pat rep n ((c :: cs).drop pat.length)
      else c :: replaceAll pat rep n cs

/-- The renaming of the comparison: "user" becomes "product" (and so "users"
becomes "products"), "User" becomes "Product". -/
def renameEntity (s : String) : String :=
  let cs := s.toList
  let lower := replaceAll "user".toList "product".toList cs.length cs
  String.mk (replaceAll "User".toList "Product".toList lower.length lower)

/-- The renaming applied to the value of `message`: to its text. -/
def renameText : JsVal → JsVal
  | JsVal.str text => JsVal.str (renameEntity text)
  | v => v

/-- The renaming applied to one field of a response object: to the text of
`message`, and to the name of any other field. -/
def renameField : String × JsVal → String × JsVal
  | (k, v) => if k = "message" then (k, renameText v) else (renameEntity k, v)

/-- The renaming applied to a call of a handler. -/
def renameEffect : Effect → Effect
  | Effect.json (JsVal.obj fields) => Effect.json (JsVal.obj (fields.map renameField))
  | e => e

/-- A request `PUT /api/users/7` with body `{"name": "pen"}`, as the router
hands it to the controller. -/
def sampleUpdate : Request :=
  ⟨Method.PUT, ["7"], [("id", "7")], [], [], JsVal.obj [("name", JsVal.str "pen")],
    JsVal.undefined, false, none, none⟩

/-! ## Theorems -/

/-- C1: for every id string `P` and every request whose `params.id` is `P`,
`getUserById` sends exactly one JSON response, whose only field is `message`,
equal to "Returning user with ID " followed by `P`; nothing else in the
request matters. -/
theorem getUserById_echoes_id (P : String) (req : Request)
    (hid : req.params.lookup "id" = some P) :
    getUserById req =
      [Effect.json (JsVal.obj [("message", JsVal.str ("Returning user with ID " ++ P))])] := by
  simp [getUserById, hid, templateArg]

/-- Witness of C1 on the request `GET /api/users/42`. -/
theorem getUserById_echoes_id_witness :
    getUserById ⟨Method.GET, ["api", "users", "42"], [("id", "42")], [("q", "1")], [],
        JsVal.undefined, JsVal.undefined, false, none, none⟩ =
      [Effect.json (JsVal.obj [("message", JsVal.str ("Returning user with ID " ++ "42"))])] :=
  getUserById_echoes_id "42" _ rfl

/-- C2: for every request, `createUser` sends one JSON response with message
"User created" and the request body itself under the key "user"; two requests
with the same body get the same response. -/
theorem createUser_returns_body (req : Request) :
    createUser req =
        [Effect.json (JsVal.obj [("message", JsVal.str "User created"), ("user", req.body)])] ∧
      ∀ req2 : Request, req2.body = req.body → createUser req2 = createUser req := by
  refine ⟨rfl, ?_⟩
  intro req2 h
  simp [createUser, h]

/-- C8: the products router sends each of the five verb and path pairs to its
own product controller, for every non-empty id segment `P`, every body `B`
and whatever the rest of the request holds; and no request is accepted by
more than one route of the router, so `GET /` never reaches the `/:id`
route. -/
theorem productsRouter_dispatch (P : String) (B : JsVal) (hP : P ≠ "")
    (ps q hs : List (String × String)) (u : JsVal) (a : Bool) (je ue : Option AppError) :
    dispatch router none ⟨Method.GET, [], ps, q, hs, B, u, a, je, ue⟩ =
        [Effect.json (JsVal.obj [("message", JsVal.str "Returning list of products")])] ∧
    dispatch router none ⟨Method.GET, [P], ps, q, hs, B, u, a, je, ue⟩ =
        [Effect.json (JsVal.obj
          [("message", JsVal.str ("Returning product with ID " ++ P))])] ∧
    dispatch router none ⟨Method.POST, [], ps, q, hs, B, u, a, je, ue⟩ =
        [Effect.json (JsVal.obj
          [("message", JsVal.str "Product created"), ("product", B)])] ∧
    dispatch router none ⟨Method.PUT, [P], ps, q, hs, B, u, a, je, ue⟩ =
        [Effect.json (JsVal.obj
          [("message", JsVal.str ("Product with ID " ++ P ++ " updated")), ("product", B)])] ∧
    dispatch router none ⟨Method.DELETE, [P], ps, q, hs, B, u, a, je, ue⟩ =
        [Effect.json (JsVal.obj
          [("message", JsVal.str ("Product with ID " ++ P ++ " deleted"))])] ∧
    ∀ req : Request, (router.filter (fun l => l.accepts req)).length ≤ 1 := by
  refine ⟨?_, ?_, ?_, ?_, ?_, ?_⟩
  · simp [dispatch, router, handlesMethod, matchPath, runChain, getProducts]
  · simp [dispatch, router, handlesMethod, matchPath, runChain, getProductById,
      templateArg, hP]
  · simp [dispatch, router, handlesMethod, matchPath, runChain, createProduct]
  · simp [dispatch, router, handlesMethod, matchPath, runChain, updateProduct,
      templateArg, hP]
  · simp [dispatch, router, handlesMethod, matchPath, runChain, deleteProduct,
      templateArg, hP]
  · rintro ⟨m, path, ps2, q2, hs2, b2, u2, a2, je2, ue2⟩
    rcases path with _ | ⟨x, _ | ⟨y, zs⟩⟩
    · cases m <;> simp [router, Layer.accepts, handlesMethod, matchPath, List.filter]
    · by_cases hx : x = ""
      · cases m <;>
          simp [router, Layer.accepts, handlesMethod, matchPath, List.filter, hx]
      · cases m <;>
          simp [router, Layer.accepts, handlesMethod, matchPath, List.filter, hx]
    · by_cases hx : x = ""
      · cases m <;>
          simp [router, Layer.accepts, handlesMethod, matchPath, List.filter, hx]
      · cases m <;>
          simp [router, Layer.accepts, handlesMethod, matchPath, List.filter, hx]

/-- Witness of C8 with id `7` and an object body. -/
theorem productsRouter_dispatch_witness :
    dispatch router none
        ⟨Method.PUT, ["7"], [], [], [], JsVal.obj [("name", JsVal.str "pen")],
          JsVal.undefined, false, none, none⟩ =
      [Effect.json (JsVal.obj
        [("message", JsVal.str ("Product with ID " ++ "7" ++ " updated")),
         ("product", JsVal.obj [("name", JsVal.str "pen")])])] :=
  (productsRouter_dispatch "7" (JsVal.obj [("name", JsVal.str "pen")]) (by decide)
    [] [] [] JsVal.undefined false none none).2.2.2.1

/-- Comparison of the two fixed segments that decide whether the demo route
is taken by the mount of the users router. -/
theorem lowerSeg_users_ne_error_demo : lowerSeg "users" ≠ lowerSeg "error-demo" := by
  decide

/-- C3, as stated, fails: a `GET /api/error-demo` request with a JSON body
that does not parse is refused by `express.json()` with status 400 before the
route is reached; the error middleware answers that error, so the answer is
a 400 and not the 404 of the route. -/
theorem error_demo_malformed_body_400 :
    dispatch (app (fun _req => [Effect.next])) none
        ⟨Method.GET, ["api", "error-demo"], [], [], [("content-type", "application/json")],
          JsVal.undefined, JsVal.undefined, false,
          some (AppError.mk 400 "Unexpected token b in JSON at position 1"), none⟩ =
      [Effect.status 400,
       Effect.json (JsVal.obj
        [("message", JsVal.str "Unexpected token b in JSON at position 1")])] ∧
    dispatch (app (fun _req => [Effect.next])) none
        ⟨Method.GET, ["api", "error-demo"], [], [], [("content-type", "application/json")],
          JsVal.undefined, JsVal.undefined, false,
          some (AppError.mk 400 "Unexpected token b in JSON at position 1"), none⟩ ≠
      [Effect.status 404,
       Effect.json (JsVal.obj [("message", JsVal.str "Resource not found")])] := by
  have h : dispatch (app (fun _req => [Effect.next])) none
        ⟨Method.GET, ["api", "error-demo"], [], [], [("content-type", "application/json")],
          JsVal.undefined, JsVal.undefined, false,
          some (AppError.mk 400 "Unexpected token b in JSON at position 1"), none⟩ =
      [Effect.status 400,
       Effect.json (JsVal.obj
        [("message", JsVal.str "Unexpected token b in JSON at position 1")])] := by
    simp [dispatch, app, stripMount, jsonParser, validation]
  refine ⟨h, ?_⟩
  rw [h]
  simp

/-- C3, amended: on every `GET /api/error-demo` request whose body the two
body parsers accept, whatever the users router does and whatever else the
request holds, the route handler answers nothing itself and calls `next` with
the `AppError` built from 404 and "Resource not found"; the error middleware
registered last turns that error into status 404 with that message, and this
is the whole answer of the application. -/
theorem error_demo_yields_404_when_parsed (userRoutes : Handler) (req : Request)
    (hm : req.method = Method.GET) (hp : req.path = ["api", "error-demo"])
    (hj : req.jsonError = none) (hu : req.urlencodedError = none) :
    errorDemoHandler req = [Effect.nextErr (AppError.mk 404 "Resource not found")] ∧
    validation (AppError.mk 404 "Resource not found") req =
        [Effect.status 404,
         Effect.json (JsVal.obj [("message", JsVal.str "Resource not found")])] ∧
    dispatch (app userRoutes) none req =
      [Effect.status 404,
       Effect.json (JsVal.obj [("message", JsVal.str "Resource not found")])] := by
  refine ⟨rfl, rfl, ?_⟩
  simp [dispatch, app, stripMount, jsonParser, urlencodedParser, hm, hp, hj, hu,
    handlesMethod, matchPath, runChain, errorDemoHandler, validation,
    lowerSeg_users_ne_error_demo]

/-- Witness of the amended C3 on a `GET /api/error-demo` without a body, with
a users router that answers every request it is given. -/
theorem error_demo_yields_404_when_parsed_witness :
    dispatch (app getUsers) none
        ⟨Method.GET, ["api", "error-demo"], [], [], [], JsVal.undefined, JsVal.undefined,
          false, none, none⟩ =
      [Effect.status 404,
       Effect.json (JsVal.obj [("message", JsVal.str "Resource not found")])] :=
  (error_demo_yields_404_when_parsed getUsers
    ⟨Method.GET, ["api", "error-demo"], [], [], [], JsVal.undefined, JsVal.undefined,
      false, none, none⟩ rfl rfl rfl rfl).2.2

/-- C4: when `req.isAuthenticated()` is false the guard redirects to "/login"
and does not call `next`; the handlers of `GET /profile` then produce that
redirect only, no JSON is sent, and this is the answer of the route. -/
theorem profile_unauthenticated_redirects (req : Request)
    (hauth : req.isAuthenticated = false) :
    isAuthenticated req = [Effect.redirect "/login"] ∧
    Effect.next ∉ isAuthenticated req ∧
    runChain profileChain req = [Effect.redirect "/login"] ∧
    (∀ v : JsVal, Effect.json v ∉ runChain profileChain req) ∧
    (req.method = Method.GET → req.path = ["profile"] →
      dispatch [profileRoute] none req = [Effect.redirect "/login"]) := by
  have hg : isAuthenticated req = [Effect.redirect "/login"] := by
    simp [isAuthenticated, hauth]
  have hc : runChain profileChain req = [Effect.redirect "/login"] := by
    simp [runChain, profileChain, hg]
  refine ⟨hg, ?_, hc, ?_, ?_⟩
  · simp [hg]
  · intro v
    simp [hc]
  · intro hm hp
    simp [dispatch, profileRoute, handlesMethod, matchPath, hm, hp, runChain, profileChain,
      isAuthenticated, hauth]

/-- Witness of C4 on an anonymous `GET /profile`. -/
theorem profile_unauthenticated_redirects_witness :
    dispatch [profileRoute] none
        ⟨Method.GET, ["profile"], [], [], [], JsVal.undefined, JsVal.undefined, false, none, none⟩ =
      [Effect.redirect "/login"] :=
  (profile_unauthenticated_redirects
    ⟨Method.GET, ["profile"], [], [], [], JsVal.undefined, JsVal.undefined, false, none, none⟩
    rfl).2.2.2.2 rfl rfl

/-- C5: `serializeUser` and `deserializeUser` both call `done(null, u)` with
the user they are given, so deserializing what was serialized gives the user
back, and the error of either call is `null`. -/
theorem serialize_deserialize_identity (u : JsVal) :
    serializeUser u = Done.mk JsVal.null u ∧
    deserializeUser u = Done.mk JsVal.null u ∧
    deserializeUser (serializeUser u).user = Done.mk JsVal.null u ∧
    (serializeUser u).err = JsVal.null ∧ (deserializeUser u).err = JsVal.null :=
  ⟨rfl, rfl, rfl, rfl, rfl⟩

/-- C6: for a profile whose `emails` starts with an entry `e`, and for any
tokens, the verify callback calls `done` with a null error and the user made
of exactly `id`, `displayName`, `email` and `provider`, taken from
`profile.id`, `profile.displayName`, `e.value` and "google"; tokens and
profiles that agree on those three values give the same call. -/
theorem verify_builds_user (accessToken refreshToken : String) (profile : Profile)
    (e : EmailEntry) (es : List EmailEntry) (hemails : profile.emails = some (e :: es)) :
    verify accessToken refreshToken profile =
        Except.ok (Done.mk JsVal.null (JsVal.obj
          [("id", profile.id), ("displayName", profile.displayName), ("email", e.value),
           ("provider", JsVal.str "google")])) ∧
    ∀ (a2 r2 : String) (p2 : Profile) (e2 : EmailEntry) (es2 : List EmailEntry),
      p2.emails = some (e2 :: es2) → p2.id = profile.id →
      p2.displayName = profile.displayName → e2.value = e.value →
      verify a2 r2 p2 = verify accessToken refreshToken profile := by
  have key : ∀ (a r : String) (p : Profile) (x : EmailEntry) (xs : List EmailEntry),
      p.emails = some (x :: xs) →
      verify a r p = Except.ok (Done.mk JsVal.null (JsVal.obj
        [("id", p.id), ("displayName", p.displayName), ("email", x.value),
         ("provider", JsVal.str "google")])) := by
    intro a r p x xs h
    simp only [verify, h, firstEntry, entryValue]
    rfl
  refine ⟨key _ _ _ _ _ hemails, ?_⟩
  intro a2 r2 p2 e2 es2 h2 hid hname hval
  rw [key _ _ _ _ _ h2, key _ _ _ _ _ hemails, hid, hname, hval]

/-- Witness of C6 on a profile with one email entry. -/
theorem verify_builds_user_witness :
    verify "access" "refresh"
        ⟨JsVal.str "google", JsVal.str "117", JsVal.str "Ada", JsVal.undefined,
          some [⟨JsVal.str "ada@example.org", JsVal.bool true⟩], JsVal.undefined,
          JsVal.undefined, JsVal.undefined⟩ =
      Except.ok (Done.mk JsVal.null (JsVal.obj
        [("id", JsVal.str "117"), ("displayName", JsVal.str "Ada"),
         ("email", JsVal.str "ada@example.org"), ("provider", JsVal.str "google")])) :=
  (verify_builds_user "access" "refresh"
    ⟨JsVal.str "google", JsVal.str "117", JsVal.str "Ada", JsVal.undefined,
      some [⟨JsVal.str "ada@example.org", JsVal.bool true⟩], JsVal.undefined,
      JsVal.undefined, JsVal.undefined⟩
    ⟨JsVal.str "ada@example.org", JsVal.bool true⟩ [] rfl).1

/-- C7, as stated, fails: on a profile without `emails`, and on one whose
`emails` is empty, the verify callback throws a TypeError and never calls
`done`. -/
theorem verify_throws_without_emails :
    verify "access" "refresh"
        ⟨JsVal.str "google", JsVal.str "117", JsVal.str "Ada", JsVal.undefined, none,
          JsVal.undefined, JsVal.undefined, JsVal.undefined⟩ =
      Except.error (JsError.typeError "0") ∧
    verify "access" "refresh"
        ⟨JsVal.str "google", JsVal.str "117", JsVal.str "Ada", JsVal.undefined, some [],
          JsVal.undefined, JsVal.undefined, JsVal.undefined⟩ =
      Except.error (JsError.typeError "value") ∧
    ¬ ∀ (a r : String) (p : Profile), ∃ d : Done, verify a r p = Except.ok d := by
  refine ⟨rfl, rfl, ?_⟩
  intro h
  obtain ⟨d, hd⟩ := h "access" "refresh"
    ⟨JsVal.str "google", JsVal.str "117", JsVal.str "Ada", JsVal.undefined, none,
      JsVal.undefined, JsVal.undefined, JsVal.undefined⟩
  cases hd

/-- C7, amended: for every profile whose `emails` has a first entry, and any
tokens, the verify callback does not throw and calls `done` with a null error
and a user object. -/
theorem verify_completes_with_email (accessToken refreshToken : String) (profile : Profile)
    (e : EmailEntry) (es : List EmailEntry) (hemails : profile.emails = some (e :: es)) :
    ∃ fields : List (String × JsVal),
      verify accessToken refreshToken profile =
        Except.ok (Done.mk JsVal.null (JsVal.obj fields)) := by
  refine ⟨[("id", profile.id), ("displayName", profile.displayName), ("email", e.value),
    ("provider", JsVal.str "google")], ?_⟩
  simp only [verify, hemails, firstEntry, entryValue]
  rfl

/-- Witness of the amended C7 on a profile with two email entries. -/
theorem verify_completes_with_email_witness :
    ∃ fields : List (String × JsVal),
      verify "t1" "t2"
          ⟨JsVal.str "google", JsVal.str "9", JsVal.undefined, JsVal.undefined,
            some [⟨JsVal.str "a@b.c", JsVal.undefined⟩, ⟨JsVal.str "d@e.f", JsVal.undefined⟩],
            JsVal.undefined, JsVal.undefined, JsVal.undefined⟩ =
        Except.ok (Done.mk JsVal.null (JsVal.obj fields)) :=
  verify_completes_with_email "t1" "t2"
    ⟨JsVal.str "google", JsVal.str "9", JsVal.undefined, JsVal.undefined,
      some [⟨JsVal.str "a@b.c", JsVal.undefined⟩, ⟨JsVal.str "d@e.f", JsVal.undefined⟩],
      JsVal.undefined, JsVal.undefined, JsVal.undefined⟩
    ⟨JsVal.str "a@b.c", JsVal.undefined⟩ [⟨JsVal.str "d@e.f", JsVal.undefined⟩] rfl

/-- C9, as stated, fails at `PUT /7` with body `{"name": "pen"}`: `updateUser` carries the body
under the key "updatedUser", `updateProduct` under "product"; the renaming of
the entity turns the former key into "updatedProduct", so the renamed answer
of `updateUser` is not the answer of `updateProduct`. -/
theorem updateUser_key_differs :
    updateUser sampleUpdate =
        [Effect.json (JsVal.obj
          [("message", JsVal.str "User with ID 7 updated"),
           ("updatedUser", JsVal.obj [("name", JsVal.str "pen")])])] ∧
    updateProduct sampleUpdate =
        [Effect.json (JsVal.obj
          [("message", JsVal.str "Product with ID 7 updated"),
           ("product", JsVal.obj [("name", JsVal.str "pen")])])] ∧
    (updateUser sampleUpdate).map renameEffect =
        [Effect.json (JsVal.obj
          [("message", JsVal.str "Product with ID 7 updated"),
           ("updatedProduct", JsVal.obj [("name", JsVal.str "pen")])])] ∧
    (updateUser sampleUpdate).map renameEffect ≠ updateProduct sampleUpdate := by
  have hu : (updateUser sampleUpdate).map renameEffect =
      [Effect.json (JsVal.obj
        [("message", JsVal.str "Product with ID 7 updated"),
         ("updatedProduct", JsVal.obj [("name", JsVal.str "pen")])])] := rfl
  have hp : updateProduct sampleUpdate =
      [Effect.json (JsVal.obj
        [("message", JsVal.str "Product with ID 7 updated"),
         ("product", JsVal.obj [("name", JsVal.str "pen")])])] := rfl
  refine ⟨rfl, hp, hu, ?_⟩
  rw [hu, hp]
  simp

/-- Values of the renaming on the fixed texts of the user controller. -/
theorem renameEntity_fixed_texts :
    renameEntity "Returning list of users" = "Returning list of products" ∧
    renameEntity "Returning user with ID " = "Returning product with ID " ∧
    renameEntity "User created" = "Product created" ∧
    renameEntity "user" = "product" ∧
    renameEntity "User with ID " = "Product with ID " ∧
    renameEntity " updated" = " updated" ∧
    renameEntity " deleted" = " deleted" := by
  decide

/-- C9, amended: for every id `P` and body `B`, `getProducts` and
`createProduct` answer the renamed answer of `getUsers` and `createUser`;
`getProductById`, `deleteProduct` and `updateProduct` answer the message of
`getUserById`, `deleteUser` and `updateUser` with its fixed text renamed and
the id kept; both update handlers carry `B` in a second field, whose name is
left open. -/
theorem product_handlers_mirror_user_handlers (P : String) (B : JsVal) (req : Request)
    (hid : req.params.lookup "id" = some P) (hB : req.body = B) :
    (getUsers req).map renameEffect = getProducts req ∧
    (createUser req).map renameEffect = createProduct req ∧
    (getUserById req =
        [Effect.json (JsVal.obj [("message", JsVal.str ("Returning user with ID " ++ P))])] ∧
      getProductById req =
        [Effect.json (JsVal.obj
          [("message", JsVal.str (renameEntity "Returning user with ID " ++ P))])]) ∧
    (deleteUser req =
        [Effect.json (JsVal.obj
          [("message", JsVal.str ("User with ID " ++ P ++ " deleted"))])] ∧
      deleteProduct req =
        [Effect.json (JsVal.obj
          [("message",
            JsVal.str (renameEntity "User with ID " ++ P ++ renameEntity " deleted"))])]) ∧
    ∃ k1 k2 : String,
      updateUser req =
        [Effect.json (JsVal.obj
          [("message", JsVal.str ("User with ID " ++ P ++ " updated")), (k1, B)])] ∧
      updateProduct req =
        [Effect.json (JsVal.obj
          [("message",
            JsVal.str (renameEntity "User with ID " ++ P ++ renameEntity " updated")),
           (k2, B)])] := by
  obtain ⟨t1, t2, t3, t4, t5, t6, t7⟩ := renameEntity_fixed_texts
  refine ⟨?_, ?_, ⟨?_, ?_⟩, ⟨?_, ?_⟩, "updatedUser", "product", ?_, ?_⟩
  · simp [getUsers, getProducts, renameEffect, renameField, renameText, t1]
  · simp [createUser, createProduct, renameEffect, renameField, renameText, t3, t4]
  · simp [getUserById, hid, templateArg]
  · simp [getProductById, hid, templateArg, t2]
  · simp [deleteUser, hid, templateArg]
  · simp [deleteProduct, hid, templateArg, t5, t7]
  · simp [updateUser, hid, hB, templateArg]
  · simp [updateProduct, hid, hB, templateArg, t5, t6]

/-- Witness of the amended C9 on the sample request. -/
theorem product_handlers_mirror_user_handlers_witness :
    (createUser sampleUpdate).map renameEffect = createProduct sampleUpdate :=
  (product_handlers_mirror_user_handlers "7" (JsVal.obj [("name", JsVal.str "pen")])
    sampleUpdate rfl rfl).2.1

/-- C10: when `req.isAuthenticated()` is true the guard calls `next` once and
redirects nowhere, and the handlers of `GET /profile` answer one JSON object
whose only field `user` is `req.user`; on every request the guard makes
exactly one call, either `next` or the redirect to "/login", never both. -/
theorem profile_authenticated_returns_user (req : Request) :
    (req.isAuthenticated = true →
      isAuthenticated req = [Effect.next] ∧
      (∀ url : String, Effect.redirect url ∉ isAuthenticated req) ∧
      runChain profileChain req = [Effect.json (JsVal.obj [("user", req.user)])] ∧
      (req.method = Method.GET → req.path = ["profile"] →
        dispatch [profileRoute] none req =
          [Effect.json (JsVal.obj [("user", req.user)])])) ∧
    (isAuthenticated req = [Effect.next] ∨
      isAuthenticated req = [Effect.redirect "/login"]) ∧
    ¬ (isAuthenticated req = [Effect.next] ∧
      isAuthenticated req = [Effect.redirect "/login"]) := by
  refine ⟨?_, ?_, ?_⟩
  · intro hauth
    have hg : isAuthenticated req = [Effect.next] := by
      simp [isAuthenticated, hauth]
    refine ⟨hg, ?_, ?_, ?_⟩
    · intro url
      simp [hg]
    · simp [runChain, profileChain, hg, profileHandler]
    · intro hm hp
      simp [dispatch, profileRoute, handlesMethod, matchPath, hm, hp, runChain, profileChain,
        isAuthenticated, hauth, profileHandler]
  · cases h : req.isAuthenticated <;> simp [isAuthenticated, h]
  · rintro ⟨h1, h2⟩
    rw [h1] at h2
    simp at h2

/-- Witness of C10 on a logged-in `GET /profile`. -/
theorem profile_authenticated_returns_user_witness :
    dispatch [profileRoute] none
        ⟨Method.GET, ["profile"], [], [], [], JsVal.undefined,
          JsVal.obj [("id", JsVal.str "117")], true, none, none⟩ =
      [Effect.json (JsVal.obj [("user", JsVal.obj [("id", JsVal.str "117")])])] :=
  ((profile_authenticated_returns_user
    ⟨Method.GET, ["profile"], [], [], [], JsVal.undefined,
      JsVal.obj [("id", JsVal.str "117")], true, none, none⟩).1 rfl).2.2.2 rfl rfl

end RestApiRoad
